import Mathlib

/-!
# Verification of the TBEC index-computation pipeline

Shallow embedding of the `tbec-processing` repository's index computation.

The repository's notebooks (`process_indices.ipynb` and companions) call into
two project modules, `indices.py` (`compute_index`, the run-length scanner and
percentile-threshold code) and `config.py` (the variable/index lookup tables),
whose sources are not part of the repository snapshot under verification.
Definitions for those parts are modelled from the specification and carry a
doc comment starting with `Modelled from the spec:`.  Everything taken from
`process_indices.ipynb` itself (the per-file computation loop, the result
collection and merge, and the NaN-sentinel post-processing) is translated
directly from the notebook code.

Daily values are modelled as rationals (`ℚ`); the claims under verification
only concern ordering, counting and run-length structure, and stipulate
series without missing data, so NaN entries are not modelled inside daily
series.  Annual (merged) data, where the notebook explicitly handles NaN,
uses `Option` entries with `none` standing for NaN.
-/

namespace TBEC

/-! ## Run-length scanning (spell-duration core)

`run_lengths` lives in `indices.py`, which is not in the repository snapshot;
it is modelled from the spec (§4.3 RunLengthScanner). -/

/-- Single scan over the boolean sequence, tracking the current run length
`cur`; on a `false` (and at the end of the sequence) the current run is
flushed into the total if it reached `m`, otherwise it contributes 0. -/
def run_lengths_aux (m : ℕ) : List Bool → ℕ → ℕ
  | [], cur => if m ≤ cur then cur else 0
  | true :: rest, cur => run_lengths_aux m rest (cur + 1)
  | false :: rest, cur => (if m ≤ cur then cur else 0) + run_lengths_aux m rest 0

/-- Modelled from the spec: `run_lengths(boolean_sequence, min_length)` from
`indices.py` (not in the snapshot).  "scans once, and for every maximal run
of `true` values with length ≥ `min_length`, adds that run's full length to
the total. A run shorter than `min_length` contributes 0." -/
def run_lengths (bs : List Bool) (min_length : ℕ) : ℕ :=
  run_lengths_aux min_length bs 0

/-- Modelled from the spec: `longest_run(boolean_sequence)` from `indices.py`
(not in the snapshot): single scan tracking current run length and the
maximum seen, 0 for an all-`false` or empty sequence. -/
def longest_run_aux : List Bool → ℕ → ℕ → ℕ
  | [], cur, best => max best cur
  | true :: rest, cur, best => longest_run_aux rest (cur + 1) best
  | false :: rest, cur, best => longest_run_aux rest 0 (max best cur)

/-- Modelled from the spec: `longest_run` (see `longest_run_aux`). -/
def longest_run (bs : List Bool) : ℕ := longest_run_aux bs 0 0

/-- The lengths of the maximal runs of `true` in a boolean sequence, in
order.  Specification-side description used to state properties of
`run_lengths`; `cur` is the length of the run in progress. -/
def trueRunsAux : List Bool → ℕ → List ℕ
  | [], cur => if cur = 0 then [] else [cur]
  | true :: rest, cur => trueRunsAux rest (cur + 1)
  | false :: rest, cur => if cur = 0 then trueRunsAux rest 0 else cur :: trueRunsAux rest 0

/-- The list of lengths of the maximal `true`-runs of a boolean sequence. -/
def trueRuns (bs : List Bool) : List ℕ := trueRunsAux bs 0



/-! ## Order statistics (hd / cd and friends) -/

/-- The year's daily values sorted in descending order. -/
def sortDescQ (l : List ℚ) : List ℚ := List.insertionSort (· ≥ ·) l

/-- The year's daily values sorted in ascending order. -/
def sortAscQ (l : List ℚ) : List ℚ := List.insertionSort (· ≤ ·) l





/-! ## The index catalog and the per-year reductions

All of this is `indices.py` / `config.py` content, absent from the snapshot,
so it is modelled from the spec (§4.1 IndexCatalog, §4.2 ThresholdBuilder). -/

/-- Modelled from the spec: the registry of index identifiers (§4.1). -/
def catalog : List String :=
  ["hd", "cd", "rx1day", "rx5day", "hsd", "su", "dw", "r10mm", "cwd", "cdd",
   "wndd", "wsdi", "csdi"]

/-- The two spell-duration indices, as listed literally in
`run_compute_index` (`if index in ["wsdi", "csdi"]`). -/
def spell_indices : List String := ["wsdi", "csdi"]

/-- Modelled from the spec: the external index-to-required-variable mapping
(§4.4 input constraints and the §4.1 table: `hd`/`su` need daily max
temperature, `cd`/`dw` daily min temperature, the precipitation indices
daily precipitation, `hsd` daily snowfall, `wndd` daily mean wind speed,
`wsdi`/`csdi` daily mean temperature). -/
def required_varname (index_id : String) : Option String :=
  if index_id = "hd" ∨ index_id = "su" then some "tasmax"
  else if index_id = "cd" ∨ index_id = "dw" then some "tasmin"
  else if index_id = "rx1day" ∨ index_id = "rx5day" ∨ index_id = "r10mm" ∨
      index_id = "cwd" ∨ index_id = "cdd" then some "pr"
  else if index_id = "hsd" then some "prsn"
  else if index_id = "wndd" then some "sfcWind"
  else if index_id = "wsdi" ∨ index_id = "csdi" then some "tas"
  else none

/-- Sums of every window of 5 consecutive daily values (for `rx5day`). -/
def rolling5 : List ℚ → List ℚ
  | a :: b :: c :: d :: e :: rest => (a + b + c + d + e) :: rolling5 (b :: c :: d :: e :: rest)
  | _ => []

/-- Modelled from the spec: the direct-annual reduction registered for each
index id (§4.1 table), applied to one year's daily values of the required
variable.  `none` is produced when the year holds too few days for the
statistic (the all-missing/NaN degradation; the claims under verification
stipulate complete years). -/
def index_reduction (index_id : String) (year : List ℚ) : Option ℚ :=
  if index_id = "hd" then (sortDescQ year).get? 5
  else if index_id = "cd" then (sortAscQ year).get? 5
  else if index_id = "rx1day" then year.max?
  else if index_id = "rx5day" then (rolling5 year).max?
  else if index_id = "hsd" then
    match sortDescQ year with
    | [] => none
    | s => some ((s.take 5).sum / (s.take 5).length)
  else if index_id = "su" then some (year.countP (fun x => decide (25 < x)) : ℚ)
  else if index_id = "dw" then some (year.countP (fun x => decide (x < -30)) : ℚ)
  else if index_id = "r10mm" then some (year.countP (fun x => decide (10 < x)) : ℚ)
  else if index_id = "cwd" then some (longest_run (year.map (fun x => decide (1 < x))) : ℚ)
  else if index_id = "cdd" then some (longest_run (year.map (fun x => decide (x < 1))) : ℚ)
  else if index_id = "wndd" then some (year.countP (fun x => decide (10 < x)) : ℚ)
  else none

/-- Chunking with explicit fuel (each step consumes at least one element, so
`l.length` fuel always suffices). -/
def chunk365 : ℕ → List α → List (List α)
  | 0, _ => []
  | _, [] => []
  | fuel + 1, l => l.take 365 :: chunk365 fuel (l.drop 365)

/-- Modelled from the spec: the grouping of a daily series into calendar
years (§4.4).  The CORDEX daily data is modelled on a 365-day calendar, so
consecutive 365-day chunks; a trailing partial year is kept, not dropped. -/
def yearSplit (l : List α) : List (List α) := chunk365 l.length l

/-- Modelled from the spec: percentile with linear interpolation between
order statistics (§4.2), over an already-pooled sample; `none` on an empty
sample (the NaN-threshold degradation). -/
def percentile (p : ℚ) (l : List ℚ) : Option ℚ :=
  match sortAscQ l with
  | [] => none
  | s =>
    let h : ℚ := p * ((s.length : ℚ) - 1) / 100
    let k : ℕ := ⌊h⌋.toNat
    let xk : ℚ := s.getD k 0
    let xk1 : ℚ := s.getD (k + 1) xk
    some (xk + (h - (k : ℚ)) * (xk1 - xk))

/-- The baseline values whose (0-based) day-of-year is `d` (365-day
calendar), pooled across all baseline years. -/
def dayPool (hist : List ℚ) (d : ℕ) : List ℚ :=
  ((hist.enum).filter (fun pr => pr.1 % 365 = d)).map (fun pr => pr.2)

/-- Modelled from the spec: `ThresholdBuilder.build` (§4.2) — per calendar
day-of-year, the requested percentile of the pooled baseline sample for that
day (the bare single-calendar-day pooling across the baseline years, the
spec's minimum acceptable policy); `none` (NaN) when the pool is empty. -/
def build_thresholds (hist : List ℚ) (p : ℚ) (d : ℕ) : Option ℚ :=
  percentile p (dayPool hist d)

/-- The boolean exceedance series: each day compared with its
calendar-day threshold; a NaN (`none`) threshold always compares as "not
exceeded" (§4.2).  `warm = true` tests above (wsdi), otherwise below
(csdi). -/
def exceedSeries (vals : List ℚ) (thr : ℕ → Option ℚ) (warm : Bool) : List Bool :=
  (vals.enum).map (fun pr =>
    match thr (pr.1 % 365) with
    | none => false
    | some t => if warm then decide (t < pr.2) else decide (pr.2 < t))

/-- Modelled from the spec: the spell-duration computation (§4.4) — derive
per-calendar-day thresholds from the baseline (90th percentile for wsdi,
10th for csdi), form the boolean exceedance series for the full multi-year
series, slice per year and apply `run_lengths` with minimum length 5. -/
def spell_values (vals hist : List ℚ) (warm : Bool) : List (Option ℚ) :=
  (yearSplit (exceedSeries vals
      (build_thresholds hist (if warm then 90 else 10)) warm)).map
    (fun ys => some ((run_lengths ys 5 : ℕ) : ℚ))

/-! ## `compute_index` and the notebook's per-file loop -/

/-- The error taxonomy: `UnknownIndexError` and `MissingBaselineError` per
the spec (§7); `FileNotFoundError` is Python's error when
`xr.open_dataset` is given a path that does not exist. -/
inductive ComputeError where
  | UnknownIndexError (index_id : String)
  | MissingBaselineError
  | FileNotFoundError
deriving DecidableEq, Repr

/-- The output of one index computation for one (model, scenario): the
annual values tagged with the identifying metadata. -/
structure AnnualIndexGrid where
  index_id : String
  model : String
  scenario : String
  values : List (Option ℚ)
deriving DecidableEq, Repr

/-- Modelled from the spec: `indices.compute_index(da, index, model,
scenario, kwargs)` from `indices.py` (not in the snapshot).  An index id
not in the catalog fails with `UnknownIndexError`; a spell-duration index
with no baseline series in `kwargs` fails with `MissingBaselineError`
(§4.4, §7); otherwise the annual values are computed per year and tagged
with (index, model, scenario). -/
def compute_index (da : List ℚ) (index model scenario : String)
    (kwargs : Option (List ℚ)) : Except ComputeError AnnualIndexGrid :=
  if index ∈ catalog then
    if index ∈ spell_indices then
      match kwargs with
      | none => .error .MissingBaselineError
      | some hist_da =>
        .ok ⟨index, model, scenario, spell_values da hist_da (index = "wsdi")⟩
    else
      .ok ⟨index, model, scenario, (yearSplit da).map (index_reduction index)⟩
  else .error (.UnknownIndexError index)

/-- The on-disk CORDEX data: one optional daily series per
(scenario, varname, model) triple.  `none` models a file that does not
exist. -/
def FileStore : Type := String × String × String → Option (List ℚ)

/-- One work item of `process_indices.ipynb`: the requested index list and
the (varname, scenario, model) identity that selects the file. -/
structure WorkArgs where
  index_list : List String
  varname : String
  scenario : String
  model : String
deriving DecidableEq, Repr

/-- The `for index in index_list` loop body of `run_compute_index`
(`process_indices.ipynb`): for `wsdi`/`csdi` the historical file (the same
path with the scenario replaced by `"hist"`) is opened and its series is
passed to `compute_index` as the baseline; a raised error aborts the whole
loop (Python exception propagation).  The second component records, in
order, each (model, varname) baseline from which percentile thresholds are
derived — one record per spell-duration `compute_index` call. -/
def computeLoop (st : FileStore) (da : List ℚ) (varname model scenario : String) :
    List String → Except ComputeError (List AnnualIndexGrid) × List (String × String)
  | [] => (.ok [], [])
  | index :: rest =>
    if index ∈ spell_indices then
      match st ("hist", varname, model) with
      | none => (.error .FileNotFoundError, [])
      | some hist_da =>
        match compute_index da index model scenario (some hist_da) with
        | .error e => (.error e, [(model, varname)])
        | .ok g =>
          match computeLoop st da varname model scenario rest with
          | (.error e, evs) => (.error e, (model, varname) :: evs)
          | (.ok gs, evs) => (.ok (g :: gs), (model, varname) :: evs)
    else
      match compute_index da index model scenario none with
      | .error e => (.error e, [])
      | .ok g =>
        match computeLoop st da varname model scenario rest with
        | (.error e, evs) => (.error e, evs)
        | (.ok gs, evs) => (.ok (g :: gs), evs)

/-- Translation of `run_compute_index(args)` from `process_indices.ipynb`: open the file
for (scenario, varname, model) and compute every requested index for it,
with the instrumentation described at `computeLoop`. -/
def run_compute_index (st : FileStore) (a : WorkArgs) :
    Except ComputeError (List AnnualIndexGrid) × List (String × String) :=
  match st (a.scenario, a.varname, a.model) with
  | none => (.error .FileNotFoundError, [])
  | some da => computeLoop st da a.varname a.model a.scenario a.index_list

/-- Modelled from the spec: `IndexEngine.compute(series, index_ids, model,
scenario, baseline_series)` (§4.4) — one `compute_index` call per requested
index id, forwarding the optional baseline series to the spell-duration
indices (as the notebook's loop forwards `kwargs` only for `wsdi`/`csdi`),
with the error-propagation semantics of the source loop in
`run_compute_index`: a raised error aborts the whole call. -/
def compute (da : List ℚ) (model scenario : String) (baseline : Option (List ℚ)) :
    List String → Except ComputeError (List AnnualIndexGrid)
  | [] => .ok []
  | index :: rest =>
    match compute_index da index model scenario
        (if index ∈ spell_indices then baseline else none) with
    | .error e => .error e
    | .ok g =>
      match compute da model scenario baseline rest with
      | .error e => .error e
      | .ok gs => .ok (g :: gs)

/-! ## The job: all work items, completion order, and the merge -/

/-- The per-calendar-day percentile-threshold derivations performed while a
job processes its work items: one (model, varname) record per
spell-duration `compute_index` call, in processing order. -/
def jobBaselineEvents (st : FileStore) (argsList : List WorkArgs) :
    List (String × String) :=
  (argsList.map (fun a => (run_compute_index st a).2)).flatten

/-- How often the job derives percentile thresholds from the historical
baseline of a given (model, variable) pair. -/
def thresholdComputations (st : FileStore) (argsList : List WorkArgs)
    (key : String × String) : ℕ :=
  (jobBaselineEvents st argsList).count key

/-- One work-item step with the dataset store threaded explicitly.  The
source (`run_compute_index`) only reads the datasets (`xr.open_dataset` on
files it never writes), so the store comes back unchanged. -/
def run_compute_index_st (st : FileStore) (a : WorkArgs) :
    Except ComputeError (List AnnualIndexGrid) × FileStore :=
  ((run_compute_index st a).1, st)

/-- The collection loop of `process_indices.ipynb` (`pool.imap_unordered`
feeding `results.append`), with the dataset store threaded through the
work items in sequence. -/
def runJobSt (st : FileStore) :
    List WorkArgs → List (Except ComputeError (List AnnualIndexGrid)) × FileStore
  | [] => ([], st)
  | a :: rest =>
    match run_compute_index_st st a with
    | (r, st1) =>
      match runJobSt st1 rest with
      | (rs, st2) => (r :: rs, st2)

/-- The (index_id, model, scenario) identity attached to each result. -/
def tagOf (g : AnnualIndexGrid) : String × String × String :=
  (g.index_id, g.model, g.scenario)

/-- The merge of the collected per-index results
(`xr.merge([da for da_list in results for da in da_list])`): the combined
dataset maps each (index_id, model, scenario) identity to the annual values
of the result carrying that identity. -/
def mergeResults (grids : List AnnualIndexGrid) :
    String × String × String → Option (List (Option ℚ)) :=
  fun k => (grids.find? (fun g => decide (tagOf g = k))).map AnnualIndexGrid.values

/-! ## Post-processing: NaN sentinel substitution and integer cast -/

/-- One merged index variable: the flattened (model, scenario, year, cell)
entries, `none` standing for NaN, with its `_FillValue` attribute. -/
structure DataArr where
  values : List (Option ℚ)
  fillValue : Option ℤ
deriving DecidableEq, Repr

/-- The same variable after the cast to 32-bit integers. -/
structure IntDataArr where
  values : List (Option ℤ)
  fillValue : Option ℤ
deriving DecidableEq, Repr

/-- Translation of `replace_nan(da)` from `process_indices.ipynb`:
`da.values[np.isnan(da.values)] = -9999` then
`da.attrs["_FillValue"] = -9999`. -/
def replace_nan (da : DataArr) : DataArr :=
  { values := da.values.map (fun v =>
      match v with
      | none => some ((-9999 : ℚ))
      | some x => some x),
    fillValue := some (-9999) }

/-- Float-to-integer conversion as `numpy` casts: truncation toward zero. -/
def truncToInt (q : ℚ) : ℤ := if 0 ≤ q then ⌊q⌋ else -⌊-q⌋

/-- Wrap-around to the signed 32-bit range, as `astype(np.int32)` does. -/
def toInt32 (z : ℤ) : ℤ := (z + 2 ^ 31) % 2 ^ 32 - 2 ^ 31

/-- The cast `.astype(np.int32)` on a merged index variable. -/
def astype_int32 (da : DataArr) : IntDataArr :=
  { values := da.values.map (Option.map (fun q => toInt32 (truncToInt q))),
    fillValue := da.fillValue }

/-- The count-type index variables listed in the notebook's sentinel loop. -/
def count_varnames : List String :=
  ["r10mm", "wsdi", "csdi", "cwd", "cdd", "su", "dw", "wndd"]

/-- Sequential store updates, one per listed variable name
(`ds[varname] = ...` in a `for` loop). -/
def updStore (f : String → Option IntDataArr) (names : List String)
    (acc : String → Option IntDataArr) : String → Option IntDataArr :=
  names.foldl (fun acc v => fun w => if w = v then f v else acc w) acc

/-- The notebook's sentinel/cast loop:
`for varname in [...]: ds[varname] = replace_nan(ds[varname]).astype(np.int32)`,
collecting the converted integer variables. -/
def postprocess_counts (ds : String → Option DataArr) :
    String → Option IntDataArr :=
  updStore (fun v => (ds v).map (fun da => astype_int32 (replace_nan da)))
    count_varnames (fun _ => none)

/-! ## Concrete fixtures used by the counterexamples and witnesses -/

/-- A year-Y boolean exceedance slice (365 days): days 1–363 not exceeding
(day 363 `false`, so a run starts at day 364), days 364–365 exceeding — the
year-Y part of a 7-day run split across the year boundary. -/
def yearY_exceed : List Bool := List.replicate 363 false ++ [true, true]

/-- The matching year-Y+1 slice (365 days): days 1–5 exceeding (the rest of
the 7-day run), the remaining days not. -/
def yearY1_exceed : List Bool :=
  [true, true, true, true, true] ++ false :: List.replicate 359 false

/-- A store holding exactly one daily-max-temperature file, for the
(rcp45, tasmax, m1) work item. -/
def st0 : FileStore := fun k =>
  if k = ("rcp45", "tasmax", "m1") then some [1] else none

/-- A work item requesting a registered index, an unregistered one, and
another registered one. -/
def args0 : WorkArgs :=
  { index_list := ["su", "bogus", "dw"], varname := "tasmax",
    scenario := "rcp45", model := "m1" }

/-- A store with the historical baseline and two future-scenario files of
the same (model, variable) pair. -/
def st1 : FileStore := fun k =>
  if k = ("hist", "tas", "m1") ∨ k = ("rcp45", "tas", "m1") ∨
      k = ("rcp85", "tas", "m1") then some [] else none

/-- The rcp45 spell-duration work item against `st1`. -/
def args_rcp45 : WorkArgs :=
  { index_list := ["wsdi"], varname := "tas", scenario := "rcp45", model := "m1" }

/-- The rcp85 spell-duration work item against `st1`. -/
def args_rcp85 : WorkArgs :=
  { index_list := ["wsdi"], varname := "tas", scenario := "rcp85", model := "m1" }



/-! ## Supporting lemmas -/

theorem run_lengths_aux_eq_sum (m : ℕ) :
    ∀ (bs : List Bool) (cur : ℕ),
      run_lengths_aux m bs cur = ((trueRunsAux bs cur).filter (fun r => m ≤ r)).sum := by
  intro bs
  induction bs with
  | nil =>
    intro cur
    by_cases h0 : cur = 0
    · subst h0
      simp [run_lengths_aux, trueRunsAux]
    · rw [run_lengths_aux, trueRunsAux, if_neg h0]
      by_cases hm : m ≤ cur
      · simp [hm]
      · simp [hm]
  | cons b rest ih =>
    intro cur
    cases b with
    | true => rw [run_lengths_aux, trueRunsAux, ih]
    | false =>
      rw [run_lengths_aux, trueRunsAux, ih]
      by_cases h0 : cur = 0
      · subst h0
        simp
      · rw [if_neg h0]
        by_cases hm : m ≤ cur
        · simp [hm]
        · simp [hm]

/-- The scan `run_lengths` totals exactly the maximal `true`-runs of length at least
`min_length`, each contributing its full length; shorter runs contribute 0. -/
theorem run_lengths_eq_sum (bs : List Bool) (m : ℕ) :
    run_lengths bs m = ((trueRuns bs).filter (fun r => m ≤ r)).sum :=
  run_lengths_aux_eq_sum m bs 0

theorem run_lengths_aux_append_false (m : ℕ) (b : List Bool) :
    ∀ (a : List Bool) (cur : ℕ),
      run_lengths_aux m (a ++ false :: b) cur =
        run_lengths_aux m a cur + run_lengths_aux m b 0 := by
  intro a
  induction a with
  | nil => intro cur; rfl
  | cons x rest ih =>
    intro cur
    cases x with
    | true => rw [List.cons_append, run_lengths_aux, run_lengths_aux, ih]
    | false =>
      rw [List.cons_append, run_lengths_aux, run_lengths_aux, ih, Nat.add_assoc]

/-- A `false` separator splits the count additively: runs on either side are
scored independently. -/
theorem run_lengths_append_false (a b : List Bool) (m : ℕ) :
    run_lengths (a ++ false :: b) m = run_lengths a m + run_lengths b m :=
  run_lengths_aux_append_false m b a 0

theorem length_sortDescQ (l : List ℚ) : (sortDescQ l).length = l.length :=
  List.length_insertionSort _ l

theorem length_sortAscQ (l : List ℚ) : (sortAscQ l).length = l.length :=
  List.length_insertionSort _ l

/-- In a descending-sorted list with more than five elements, at least six
elements are ≥ the element at (0-based) index 5. -/
theorem six_le_countP_sorted_desc (s : List ℚ) (hs : List.Sorted (· ≥ ·) s)
    (h5 : 5 < s.length) :
    6 ≤ s.countP (fun x => decide (s.get ⟨5, h5⟩ ≤ x)) := by
  set v : ℚ := s.get ⟨5, h5⟩ with hv
  have htake : ∀ x ∈ s.take 6, decide (v ≤ x) = true := by
    intro x hx
    obtain ⟨⟨i, hi⟩, hxi⟩ := List.mem_iff_get.mp hx
    have hi6 : i < 6 := lt_of_lt_of_le hi (by
      rw [List.length_take]; exact min_le_left _ _)
    have hiS : i < s.length := lt_of_lt_of_le hi (by
      rw [List.length_take]; exact min_le_right _ _)
    have hget : (s.take 6).get ⟨i, hi⟩ = s.get ⟨i, hiS⟩ := by
      simp [List.getElem_take]
    rw [hget] at hxi
    rcases Nat.lt_or_ge i 5 with hlt | hge5
    · have h := List.pairwise_iff_get.mp hs ⟨i, hiS⟩ ⟨5, h5⟩ hlt
      rw [← hxi]
      simp only [decide_eq_true_eq, hv]
      exact h
    · have h5i : i = 5 := le_antisymm (Nat.lt_succ_iff.mp hi6) hge5
      subst h5i
      rw [← hxi]
      simp [hv]
  calc 6 = (s.take 6).length := by rw [List.length_take]; omega
    _ = (s.take 6).countP (fun x => decide (v ≤ x)) :=
        (List.countP_eq_length.mpr htake).symm
    _ ≤ s.countP (fun x => decide (v ≤ x)) := by
        conv_rhs => rw [← List.take_append_drop 6 s]
        rw [List.countP_append]
        exact Nat.le_add_right _ _

/-- In an ascending-sorted list with more than five elements, at least six
elements are ≤ the element at (0-based) index 5. -/
theorem six_le_countP_sorted_asc (s : List ℚ) (hs : List.Sorted (· ≤ ·) s)
    (h5 : 5 < s.length) :
    6 ≤ s.countP (fun x => decide (x ≤ s.get ⟨5, h5⟩)) := by
  set v : ℚ := s.get ⟨5, h5⟩ with hv
  have htake : ∀ x ∈ s.take 6, decide (x ≤ v) = true := by
    intro x hx
    obtain ⟨⟨i, hi⟩, hxi⟩ := List.mem_iff_get.mp hx
    have hi6 : i < 6 := lt_of_lt_of_le hi (by
      rw [List.length_take]; exact min_le_left _ _)
    have hiS : i < s.length := lt_of_lt_of_le hi (by
      rw [List.length_take]; exact min_le_right _ _)
    have hget : (s.take 6).get ⟨i, hi⟩ = s.get ⟨i, hiS⟩ := by
      simp [List.getElem_take]
    rw [hget] at hxi
    rcases Nat.lt_or_ge i 5 with hlt | hge5
    · have h := List.pairwise_iff_get.mp hs ⟨i, hiS⟩ ⟨5, h5⟩ hlt
      rw [← hxi]
      simp only [decide_eq_true_eq, hv]
      exact h
    · have h5i : i = 5 := le_antisymm (Nat.lt_succ_iff.mp hi6) hge5
      subst h5i
      rw [← hxi]
      simp [hv]
  calc 6 = (s.take 6).length := by rw [List.length_take]; omega
    _ = (s.take 6).countP (fun x => decide (x ≤ v)) :=
        (List.countP_eq_length.mpr htake).symm
    _ ≤ s.countP (fun x => decide (x ≤ v)) := by
        conv_rhs => rw [← List.take_append_drop 6 s]
        rw [List.countP_append]
        exact Nat.le_add_right _ _

theorem updStore_not_mem (f : String → Option IntDataArr) :
    ∀ (names : List String) (acc : String → Option IntDataArr) (v : String),
      v ∉ names → updStore f names acc v = acc v := by
  intro names
  induction names with
  | nil => intro acc v _; rfl
  | cons n rest ih =>
    intro acc v hv
    rw [List.mem_cons, not_or] at hv
    rw [updStore, List.foldl_cons]
    have := ih (fun w => if w = n then f n else acc w) v hv.2
    rw [updStore] at this
    rw [this]
    simp [hv.1]

theorem updStore_mem (f : String → Option IntDataArr) :
    ∀ (names : List String) (acc : String → Option IntDataArr) (v : String),
      v ∈ names → updStore f names acc v = f v := by
  intro names
  induction names with
  | nil => intro acc v hv; cases hv
  | cons n rest ih =>
    intro acc v hv
    rw [updStore, List.foldl_cons]
    by_cases hr : v ∈ rest
    · have := ih (fun w => if w = n then f n else acc w) v hr
      rw [updStore] at this
      rw [this]
    · have hvn : v = n := by
        rcases List.mem_cons.mp hv with h | h
        · exact h
        · exact absurd h hr
      have := updStore_not_mem f rest (fun w => if w = n then f n else acc w) v hr
      rw [updStore] at this
      rw [this]
      simp [hvn]

/-- Looking up a listed variable after the sentinel loop yields its
converted array. -/
theorem postprocess_counts_lookup (ds : String → Option DataArr) (v : String)
    (hv : v ∈ count_varnames) :
    postprocess_counts ds v = (ds v).map (fun da => astype_int32 (replace_nan da)) :=
  updStore_mem _ count_varnames _ v hv

/-! ## Claim C4: `run_lengths` totals qualifying maximal runs -/

/-- C4: `run_lengths(boolean_sequence, min_length)` returns the total number
of days belonging to maximal runs of `true` whose length is at least
`min_length` — each maximal run of length ≥ `min_length` contributes its
full length, each shorter run contributes 0 — and in particular every
boolean sequence whose maximal run lengths are [7, 3, 6] yields 13 at
`min_length = 5` (7 + 6, the 3-run contributing 0). -/
theorem C4_run_lengths_counts_qualifying_runs :
    (∀ (bs : List Bool) (m : ℕ),
      run_lengths bs m = ((trueRuns bs).filter (fun r => m ≤ r)).sum) ∧
    (∀ bs : List Bool, trueRuns bs = [7, 3, 6] → run_lengths bs 5 = 13) := by
  refine ⟨run_lengths_eq_sum, ?_⟩
  intro bs h
  rw [run_lengths_eq_sum, h]
  decide

/-- C4 witness: a concrete sequence with maximal runs [7, 3, 6] scores 13
at minimum run length 5. -/
theorem C4_run_lengths_counts_qualifying_runs_witness :
    run_lengths
      (List.replicate 7 true ++ false ::
        (List.replicate 3 true ++ false :: List.replicate 6 true)) 5 = 13 :=
  C4_run_lengths_counts_qualifying_runs.2 _ (by decide)

/-! ## Claim C1: a spell split across a year boundary -/

set_option maxRecDepth 4000 in
/-- C1 counterexample: for the boolean exceedance series holding a 7-day run
that starts on day 364 of year Y (`yearY_exceed`, whose last two days are
the run's first two days) and ends on day 5 of year Y+1 (`yearY1_exceed`,
whose first five days are the run's last five days), the per-year counts at
minimum run length 5 are 0 and 5 — not 2 and 5 as claimed: the 2-day
year-Y stub is shorter than the minimum run length, so it contributes
nothing to year Y. -/
theorem C1_counterexample :
    run_lengths yearY_exceed 5 = 0 ∧
    run_lengths yearY_exceed 5 ≠ 2 ∧
    run_lengths yearY1_exceed 5 = 5 := by
  refine ⟨?_, ?_, ?_⟩ <;> decide

/-- C1 (amended): a run of qualifying days split across two consecutive
calendar years is truncated at the boundary and each yearly part is scored
against the minimum run length separately: for every exceedance series
whose year-Y slice ends with the split run's 2-day stub (days 364–365
`true`, day 363 `false`) and whose year-Y+1 slice starts with the run's
remaining 5 days followed by a `false`, the split run adds 0 days to year
Y's count (2 < 5) and 5 days to year Y+1's count. -/
theorem C1_boundary_truncation (p q : List Bool) (hp : p.length = 362) :
    run_lengths (p ++ [false, true, true]) 5 = run_lengths p 5 ∧
    run_lengths ([true, true, true, true, true] ++ false :: q) 5 =
      5 + run_lengths q 5 := by
  constructor
  · have hsplit : p ++ [false, true, true] = p ++ false :: [true, true] := rfl
    rw [hsplit, run_lengths_append_false]
    have h2 : run_lengths [true, true] 5 = 0 := by decide
    rw [h2, Nat.add_zero]
  · rw [run_lengths_append_false]
    have h5 : run_lengths [true, true, true, true, true] 5 = 5 := by decide
    rw [h5]

/-- C1 witness: the amended statement applied to the all-`false` context,
where the per-year counts are exactly 0 and 5. -/
theorem C1_boundary_truncation_witness :
    run_lengths (List.replicate 362 false ++ [false, true, true]) 5 =
      run_lengths (List.replicate 362 false) 5 ∧
    run_lengths ([true, true, true, true, true] ++ false ::
        List.replicate 359 false) 5 =
      5 + run_lengths (List.replicate 359 false) 5 :=
  C1_boundary_truncation (List.replicate 362 false) (List.replicate 359 false)
    (List.length_replicate 362 false)

/-! ## Claims C5 and C2: the hd / cd order statistics -/

theorem sortDescQ_sorted (l : List ℚ) : List.Sorted (· ≥ ·) (sortDescQ l) :=
  List.sorted_insertionSort _ l

theorem sortAscQ_sorted (l : List ℚ) : List.Sorted (· ≤ ·) (sortAscQ l) :=
  List.sorted_insertionSort _ l

theorem sortDescQ_perm (l : List ℚ) : (sortDescQ l).Perm l :=
  List.perm_insertionSort _ l

theorem sortAscQ_perm (l : List ℚ) : (sortAscQ l).Perm l :=
  List.perm_insertionSort _ l

/-- C5: for a year of daily max-temperature values with no missing data and
at least 6 days, `hd` is the value at rank 6 (1-indexed) of the
descending-sorted values — the 6th order statistic from the top — and at
least 5 of the year's observations are ≥ the returned value (in fact at
least 6 counting the returned observation itself, ties counted individually
by value). -/
theorem C5_hd_sixth_highest (tmax_year : List ℚ) (hl : 5 < tmax_year.length) :
    index_reduction "hd" tmax_year =
      some ((sortDescQ tmax_year).get
        ⟨5, lt_of_lt_of_eq hl (length_sortDescQ tmax_year).symm⟩) ∧
    ∀ v, index_reduction "hd" tmax_year = some v →
      5 ≤ tmax_year.countP (fun x => decide (v ≤ x)) := by
  have hlen : 5 < (sortDescQ tmax_year).length :=
    lt_of_lt_of_eq hl (length_sortDescQ tmax_year).symm
  have hred : index_reduction "hd" tmax_year = (sortDescQ tmax_year).get? 5 := rfl
  constructor
  · rw [hred, List.get?_eq_get hlen]
  · intro v hv
    rw [hred, List.get?_eq_get hlen, Option.some.injEq] at hv
    have h6 := six_le_countP_sorted_desc (sortDescQ tmax_year)
      (sortDescQ_sorted tmax_year) hlen
    rw [hv] at h6
    have hcp := (sortDescQ_perm tmax_year).countP_eq (fun x => decide (v ≤ x))
    omega

/-- C5 witness: for the concrete year [3, 1, 4, 1, 5, 9, 2] the returned
`hd` value is 1 (descending rank 6) and at least 5 observations are ≥ 1. -/
theorem C5_hd_sixth_highest_witness :
    5 ≤ ([3, 1, 4, 1, 5, 9, 2] : List ℚ).countP (fun x => decide ((1 : ℚ) ≤ x)) :=
  (C5_hd_sixth_highest [3, 1, 4, 1, 5, 9, 2] (by decide)).2 1 (by decide)

/-- C2: the `cd` ("cold day") index is computed from the daily minimum
temperature — its required input variable is T_min, not T_max — and for
every year of daily T_min data with at least 6 days it equals the 6th-lowest
daily value (rank 6 of the ascending-sorted values), with at least 5 of the
year's observations ≤ the returned value. -/
theorem C2_cd_from_tmin :
    required_varname "cd" = some "tasmin" ∧
    required_varname "cd" ≠ some "tasmax" ∧
    ∀ (tmin_year : List ℚ) (hl : 5 < tmin_year.length),
      index_reduction "cd" tmin_year =
        some ((sortAscQ tmin_year).get
          ⟨5, lt_of_lt_of_eq hl (length_sortAscQ tmin_year).symm⟩) ∧
      ∀ v, index_reduction "cd" tmin_year = some v →
        5 ≤ tmin_year.countP (fun x => decide (x ≤ v)) := by
  refine ⟨rfl, by decide, ?_⟩
  intro tmin_year hl
  have hlen : 5 < (sortAscQ tmin_year).length :=
    lt_of_lt_of_eq hl (length_sortAscQ tmin_year).symm
  have hred : index_reduction "cd" tmin_year = (sortAscQ tmin_year).get? 5 := rfl
  constructor
  · rw [hred, List.get?_eq_get hlen]
  · intro v hv
    rw [hred, List.get?_eq_get hlen, Option.some.injEq] at hv
    have h6 := six_le_countP_sorted_asc (sortAscQ tmin_year)
      (sortAscQ_sorted tmin_year) hlen
    rw [hv] at h6
    have hcp := (sortAscQ_perm tmin_year).countP_eq (fun x => decide (x ≤ v))
    omega

/-- C2 witness: for the concrete T_min year [3, 1, 4, 1, 5, 9, 2] the `cd`
value is 5 (ascending rank 6) and at least 5 observations are ≤ 5. -/
theorem C2_cd_from_tmin_witness :
    5 ≤ ([3, 1, 4, 1, 5, 9, 2] : List ℚ).countP (fun x => decide (x ≤ (5 : ℚ))) :=
  (C2_cd_from_tmin.2.2 [3, 1, 4, 1, 5, 9, 2] (by decide)).2 5 (by decide)

/-! ## Claim C3: an unknown index id and its siblings -/

theorem compute_index_ok_mem_catalog (da : List ℚ) (index model scenario : String)
    (kwargs : Option (List ℚ)) (g : AnnualIndexGrid)
    (h : compute_index da index model scenario kwargs = .ok g) :
    index ∈ catalog := by
  by_cases hc : index ∈ catalog
  · exact hc
  · rw [compute_index.eq_def, if_neg hc] at h
    cases h

theorem computeLoop_ok_mem_catalog (st : FileStore) (da : List ℚ)
    (varname model scenario : String) :
    ∀ (l : List String) (gs : List AnnualIndexGrid),
      (computeLoop st da varname model scenario l).1 = Except.ok gs →
      ∀ i ∈ l, i ∈ catalog := by
  intro l
  induction l with
  | nil => intro gs _ i hi; cases hi
  | cons index rest ih =>
    intro gs h i hi
    rw [computeLoop] at h
    by_cases hsp : index ∈ spell_indices
    · rw [if_pos hsp] at h
      rcases hhist : st ("hist", varname, model) with _ | hist_da
      · simp only [hhist] at h
        cases h
      · simp only [hhist] at h
        rcases hci : compute_index da index model scenario (some hist_da) with e | g
        · simp only [hci] at h
          cases h
        · simp only [hci] at h
          rcases hrest : computeLoop st da varname model scenario rest with ⟨r, evs2⟩
          rcases r with e | gs2
          · simp only [hrest] at h
            cases h
          · rcases List.mem_cons.mp hi with hieq | himem
            · exact hieq ▸ compute_index_ok_mem_catalog _ _ _ _ _ _ hci
            · exact ih gs2 (by rw [hrest]) i himem
    · rw [if_neg hsp] at h
      rcases hci : compute_index da index model scenario none with e | g
      · simp only [hci] at h
        cases h
      · simp only [hci] at h
        rcases hrest : computeLoop st da varname model scenario rest with ⟨r, evs2⟩
        rcases r with e | gs2
        · simp only [hrest] at h
          cases h
        · rcases List.mem_cons.mp hi with hieq | himem
          · exact hieq ▸ compute_index_ok_mem_catalog _ _ _ _ _ _ hci
          · exact ih gs2 (by rw [hrest]) i himem

/-- C3 counterexample: in the work item `args0` requesting
["su", "bogus", "dw"], the unregistered id "bogus" makes the whole
`run_compute_index` call raise `UnknownIndexError` — the sibling ids "su"
(already computed) and "dw" (never reached) have no results returned, so
the failure of one index is not isolated from its siblings in the same
call. -/
theorem C3_counterexample :
    (run_compute_index st0 args0).1 =
      Except.error (ComputeError.UnknownIndexError "bogus") := rfl

/-- C3 (amended): the computation of an unregistered index_id fails with
`UnknownIndexError`, and — contrary to the claim — that failure aborts the
entire `run_compute_index` call: whenever some requested id is not in the
catalog, the call cannot return a result list, so no sibling index's result
is returned. -/
theorem C3_unknown_index_aborts_call (st : FileStore) (a : WorkArgs) (i : String)
    (hmem : i ∈ a.index_list) (hcat : i ∉ catalog) :
    ∀ gs : List AnnualIndexGrid, (run_compute_index st a).1 ≠ Except.ok gs := by
  intro gs h
  rw [run_compute_index.eq_def] at h
  rcases hda : st (a.scenario, a.varname, a.model) with _ | da
  · simp only [hda] at h
    cases h
  · simp only [hda] at h
    exact hcat (computeLoop_ok_mem_catalog st da a.varname a.model a.scenario
      a.index_list gs h i hmem)

/-- C3 witness: the amended statement at the concrete store and work item of
the counterexample. -/
theorem C3_unknown_index_aborts_call_witness :
    (run_compute_index st0 args0).1 ≠ Except.ok [] :=
  C3_unknown_index_aborts_call st0 args0 "bogus" (by decide) (by decide) []

/-! ## Claim C7: spell-duration indices and the baseline -/

theorem compute_index_some_baseline_ne_missing (da : List ℚ)
    (index model scenario : String) (hist : List ℚ) :
    compute_index da index model scenario (some hist) ≠
      Except.error ComputeError.MissingBaselineError := by
  intro h
  by_cases hc : index ∈ catalog
  · by_cases hsp : index ∈ spell_indices
    · simp [compute_index, hc, hsp] at h
    · simp [compute_index, hc, hsp] at h
  · simp [compute_index, hc] at h

theorem compute_index_not_spell_ne_missing (da : List ℚ)
    (index model scenario : String) (hsp : index ∉ spell_indices) :
    compute_index da index model scenario none ≠
      Except.error ComputeError.MissingBaselineError := by
  intro h
  by_cases hc : index ∈ catalog
  · simp [compute_index, hc, hsp] at h
  · simp [compute_index, hc] at h

/-- C7 counterexample: an engine call requesting ["wsdi", "su"] with no
baseline series fails as a whole with `MissingBaselineError` — the sibling
index "su" is never computed and no result for it is returned, so the
failure is not "fatal to that index only". -/
theorem C7_counterexample :
    compute [] "m1" "rcp45" none ["wsdi", "su"] =
      Except.error ComputeError.MissingBaselineError := rfl

/-- C7 (amended): a spell-duration index computed with no baseline series
fails with `MissingBaselineError`, and — contrary to the claim — through
the source's loop semantics that failure aborts the entire call rather
than being fatal to that index only; conversely, when a baseline series is
supplied, no call ever fails with `MissingBaselineError`. -/
theorem C7_missing_baseline_error :
    (∀ (da : List ℚ) (index model scenario : String), index ∈ spell_indices →
      compute_index da index model scenario none =
        Except.error ComputeError.MissingBaselineError) ∧
    (∀ (da : List ℚ) (model scenario : String) (baseline : List ℚ)
        (index_ids : List String),
      compute da model scenario (some baseline) index_ids ≠
        Except.error ComputeError.MissingBaselineError) := by
  constructor
  · intro da index model scenario hsp
    have hc : index ∈ catalog := by
      rcases List.mem_cons.mp hsp with h | h
      · subst h; decide
      · rcases List.mem_cons.mp h with h2 | h2
        · subst h2; decide
        · cases h2
    rw [compute_index.eq_def, if_pos hc, if_pos hsp]
  · intro da model scenario baseline ids
    induction ids with
    | nil =>
      intro h
      rw [compute] at h
      cases h
    | cons i rest ih =>
      intro h
      rw [compute] at h
      by_cases hsp : i ∈ spell_indices
      · rw [if_pos hsp] at h
        rcases hci : compute_index da i model scenario (some baseline) with e | g
        · simp only [hci] at h
          injection h with he
          subst he
          exact compute_index_some_baseline_ne_missing da i model scenario
            baseline hci
        · simp only [hci] at h
          rcases hrest : compute da model scenario (some baseline) rest with e2 | gs
          · simp only [hrest] at h
            injection h with he
            subst he
            exact ih hrest
          · simp only [hrest] at h
            cases h
      · rw [if_neg hsp] at h
        rcases hci : compute_index da i model scenario none with e | g
        · simp only [hci] at h
          injection h with he
          subst he
          exact compute_index_not_spell_ne_missing da i model scenario hsp hci
        · simp only [hci] at h
          rcases hrest : compute da model scenario (some baseline) rest with e2 | gs
          · simp only [hrest] at h
            injection h with he
            subst he
            exact ih hrest
          · simp only [hrest] at h
            cases h

/-- C7 witness: the amended statement at the concrete spell-duration index
"wsdi" with no baseline, and at a supplied baseline where no
`MissingBaselineError` arises. -/
theorem C7_missing_baseline_error_witness :
    compute_index [] "wsdi" "m1" "rcp45" none =
      Except.error ComputeError.MissingBaselineError :=
  C7_missing_baseline_error.1 [] "wsdi" "m1" "rcp45" (by decide)

/-! ## Claim C6: percentile thresholds are derived per work item -/

theorem run_wsdi_events (st : FileStore) (varname s model : String)
    (h1 : (st (s, varname, model)).isSome)
    (h2 : (st ("hist", varname, model)).isSome) :
    (run_compute_index st
      { index_list := ["wsdi"], varname := varname, scenario := s,
        model := model }).2 = [(model, varname)] := by
  obtain ⟨da, hda⟩ := Option.isSome_iff_exists.mp h1
  obtain ⟨hist, hhist⟩ := Option.isSome_iff_exists.mp h2
  rw [run_compute_index.eq_def]
  simp only [hda]
  rw [computeLoop]
  have hsp : ("wsdi" : String) ∈ spell_indices := by decide
  rw [if_pos hsp]
  simp only [hhist]
  have hc : ("wsdi" : String) ∈ catalog := by decide
  rw [compute_index.eq_def, if_pos hc, if_pos hsp]
  rfl

/-- C6 counterexample: in a job with two work items — the rcp45 and rcp85
scenarios of the same model "m1", both requesting `wsdi` against the same
(model = "m1", variable = "tas") historical baseline — the percentile
threshold table for that baseline is derived twice, once per scenario work
item, not at most once. -/
theorem C6_counterexample :
    thresholdComputations st1 [args_rcp45, args_rcp85] ("m1", "tas") = 2 ∧
    1 < thresholdComputations st1 [args_rcp45, args_rcp85] ("m1", "tas") := by
  constructor
  · rfl
  · decide

/-- C6 (amended): the percentile threshold table is not cached across work
items: it is derived from the historical baseline once per spell-duration
`compute_index` call, so a run with one `wsdi` work item per scenario
derives the thresholds of the shared (model, variable) baseline exactly as
many times as there are scenarios. -/
theorem C6_thresholds_recomputed_per_scenario (st : FileStore)
    (model varname : String) (scens : List String)
    (h1 : ∀ s ∈ scens, (st (s, varname, model)).isSome)
    (h2 : (st ("hist", varname, model)).isSome) :
    thresholdComputations st
      (scens.map (fun s =>
        { index_list := ["wsdi"], varname := varname, scenario := s,
          model := model }))
      (model, varname) = scens.length := by
  induction scens with
  | nil => rfl
  | cons s rest ih =>
    have hev := run_wsdi_events st varname s model (h1 s (by simp)) h2
    have hih := ih (fun x hx => h1 x (by simp [hx]))
    rw [thresholdComputations] at hih ⊢
    rw [jobBaselineEvents] at hih ⊢
    rw [List.map_cons, List.map_cons, List.flatten_cons, List.count_append, hev]
    rw [hih]
    have hcount : List.count (model, varname) [(model, varname)] = 1 := by simp
    rw [hcount, List.length_cons]
    omega

/-- C6 witness: the amended statement at the concrete two-scenario job of
the counterexample. -/
theorem C6_thresholds_recomputed_per_scenario_witness :
    thresholdComputations st1
      (["rcp45", "rcp85"].map (fun s =>
        { index_list := ["wsdi"], varname := "tas", scenario := s,
          model := "m1" }))
      ("m1", "tas") = 2 :=
  C6_thresholds_recomputed_per_scenario st1 "m1" "tas" ["rcp45", "rcp85"]
    (by decide) (by decide)

/-! ## Claim C8: purity and determinism of the computation -/

theorem runJobSt_eq (st : FileStore) :
    ∀ argsList : List WorkArgs,
      runJobSt st argsList =
        (argsList.map (fun a => (run_compute_index st a).1), st) := by
  intro argsList
  induction argsList with
  | nil => rfl
  | cons a rest ih =>
    simp only [runJobSt, run_compute_index_st, ih, List.map_cons]

/-- C8: the index computation is a pure, deterministic transformation —
threading the dataset store through the job returns it unchanged (the input
series are never mutated), and running every work item a second time on the
resulting state produces results identical to the first run's. -/
theorem C8_compute_pure_and_deterministic (st : FileStore)
    (argsList : List WorkArgs) :
    (runJobSt st (argsList ++ argsList)).1 =
      (runJobSt st argsList).1 ++ (runJobSt st argsList).1 ∧
    (runJobSt st argsList).2 = st := by
  constructor
  · rw [runJobSt_eq, runJobSt_eq, List.map_append]
  · rw [runJobSt_eq]

/-! ## Claim C9: the merged result is independent of completion order -/

theorem mergeResults_congr_perm (l l2 : List AnnualIndexGrid) (hp : l.Perm l2)
    (hn : (l.map tagOf).Nodup) : mergeResults l = mergeResults l2 := by
  funext k
  rw [mergeResults, mergeResults]
  rcases h1 : l.find? (fun g => decide (tagOf g = k)) with _ | g
  · rcases h2 : l2.find? (fun g => decide (tagOf g = k)) with _ | g2
    · rfl
    · exfalso
      have hg2mem : g2 ∈ l := hp.mem_iff.mpr (List.mem_of_find?_eq_some h2)
      have hg2k := List.find?_some h2
      have hnone := List.find?_eq_none.mp h1 g2 hg2mem
      exact hnone hg2k
  · have hgmem : g ∈ l := List.mem_of_find?_eq_some h1
    have hgk : tagOf g = k := by
      have := List.find?_some h1
      simpa using this
    rcases h2 : l2.find? (fun g => decide (tagOf g = k)) with _ | g2
    · exfalso
      have hnone := List.find?_eq_none.mp h2 g (hp.mem_iff.mp hgmem)
      exact hnone (decide_eq_true hgk)
    · have hg2mem : g2 ∈ l := hp.mem_iff.mpr (List.mem_of_find?_eq_some h2)
      have hg2k : tagOf g2 = k := by
        have := List.find?_some h2
        simpa using this
      have : g = g2 :=
        List.inj_on_of_nodup_map hn hgmem hg2mem (hgk.trans hg2k.symm)
      rw [this]

/-- C9: the merged dataset is independent of the order in which the
per-work-item result lists are collected — for every permutation of the
collected results, flattening and merging the tagged per-index outputs
yields the same final dataset, because each output is identified by its
(index_id, model, scenario) metadata (assumed pairwise distinct across the
job, as each work item computes a distinct combination). -/
theorem C9_merge_independent_of_completion_order
    (results results2 : List (List AnnualIndexGrid))
    (hperm : results.Perm results2)
    (hnodup : (results.flatten.map tagOf).Nodup) :
    mergeResults results.flatten = mergeResults results2.flatten :=
  mergeResults_congr_perm _ _ hperm.flatten hnodup

/-- C9 witness: two singleton result lists collected in either order merge
to the same dataset. -/
theorem C9_merge_independent_of_completion_order_witness :
    mergeResults
      ([[{ index_id := "su", model := "m1", scenario := "rcp45",
           values := [some 1] }],
        [{ index_id := "hd", model := "m1", scenario := "rcp45",
           values := [some 2] }]] : List (List AnnualIndexGrid)).flatten =
    mergeResults
      ([[{ index_id := "hd", model := "m1", scenario := "rcp45",
           values := [some 2] }],
        [{ index_id := "su", model := "m1", scenario := "rcp45",
           values := [some 1] }]] : List (List AnnualIndexGrid)).flatten :=
  C9_merge_independent_of_completion_order _ _ (by decide) (by decide)

/-! ## Claim C10: NaN sentinel substitution for count-type indices -/

/-- C10: after the post-processing loop, every count-type index variable
(r10mm, wsdi, csdi, cwd, cdd, su, dw, wndd) in the dataset has been passed
through `replace_nan` and cast to 32-bit integers: its `_FillValue`
attribute is -9999, its length is unchanged, it contains no NaN entry, every
entry that was NaN is now the sentinel -9999, and every non-NaN entry is its
original value cast to int32. -/
theorem C10_replace_nan_sentinel (ds : String → Option DataArr) (v : String)
    (da : DataArr) (hv : v ∈ count_varnames) (hda : ds v = some da) :
    postprocess_counts ds v = some (astype_int32 (replace_nan da)) ∧
    (astype_int32 (replace_nan da)).fillValue = some (-9999) ∧
    (astype_int32 (replace_nan da)).values.length = da.values.length ∧
    (∀ w ∈ (astype_int32 (replace_nan da)).values, w.isSome) ∧
    (∀ (i : ℕ) (hi : i < da.values.length)
        (hi2 : i < (astype_int32 (replace_nan da)).values.length),
      (da.values.get ⟨i, hi⟩ = none →
        (astype_int32 (replace_nan da)).values.get ⟨i, hi2⟩ = some (-9999)) ∧
      (∀ q : ℚ, da.values.get ⟨i, hi⟩ = some q →
        (astype_int32 (replace_nan da)).values.get ⟨i, hi2⟩ =
          some (toInt32 (truncToInt q)))) := by
  refine ⟨?_, rfl, ?_, ?_, ?_⟩
  · rw [postprocess_counts_lookup ds v hv, hda]
    rfl
  · simp [astype_int32, replace_nan]
  · intro w hw
    simp only [astype_int32, replace_nan, List.map_map, List.mem_map] at hw
    obtain ⟨x, _, hx⟩ := hw
    rcases x with _ | q
    · rw [← hx]; rfl
    · rw [← hx]; rfl
  · intro i hi hi2
    constructor
    · intro hnone
      simp only [astype_int32, replace_nan, List.get_eq_getElem, List.getElem_map]
      rw [List.get_eq_getElem] at hnone
      rw [hnone]
      have : toInt32 (truncToInt (-9999)) = -9999 := by decide
      simp [this]
    · intro q hq
      simp only [astype_int32, replace_nan, List.get_eq_getElem, List.getElem_map]
      rw [List.get_eq_getElem] at hq
      rw [hq]
      rfl

/-- C10 witness: a dataset holding one `wsdi` variable with a NaN and a
genuine entry is post-processed to the sentinel form. -/
theorem C10_replace_nan_sentinel_witness :
    postprocess_counts
      (fun w => if w = "wsdi"
        then some { values := [none, some 3], fillValue := none } else none)
      "wsdi" =
      some (astype_int32 (replace_nan
        { values := [none, some 3], fillValue := none })) :=
  (C10_replace_nan_sentinel
    (fun w => if w = "wsdi"
      then some { values := [none, some 3], fillValue := none } else none)
    "wsdi" { values := [none, some 3], fillValue := none }
    (by decide) rfl).1

end TBEC
